import Mathlib

/-!
Verification of the SPL-6809 compiler (`spl.py`) against its specification.

The Python source is shallowly embedded below.  Each definition carries a
reference to the source lines it translates.  Python dictionaries are
modelled as association lists (insertion ordered, value replaced in place
on re-assignment), Python exceptions as an `Except Err` result, and Python
arbitrary-precision integers as `Nat`/`Int` with explicit `% 2 ^ w`
truncation where the source masks.
-/

set_option maxRecDepth 8192

deriving instance DecidableEq for Except

/-- Outcomes of a failing Python execution: `diag` is a compiler
diagnostic raised through `SPLCompiler.Error` (src/spl.py line 924);
the other constructors are Python-level exceptions that escape the
compiler (uncaught `ValueError` from `int`, `AttributeError` from a
missing attribute, `IndexError` / `KeyError` from a bad subscript). -/
inductive Err where
  | diag (msg : String)
  | valueError
  | attributeError
  | indexError
  | keyError
  deriving Repr, DecidableEq

/-- The `LiteralInt` named tuple (src/spl.py line 548): sign marker
(+1 positive, 0 none, -1 one's complement, -2 two's complement),
magnitude, storage size in bytes (0 = unspecified), base, bounds flag,
and the original text. -/
structure LiteralInt where
  sign : Int
  mag : Nat
  size : Nat
  base : Nat
  bound : Bool
  text : String
  deriving Repr, DecidableEq

/-- `LiteralStorage` (src/spl.py lines 582-597): `re.search "(b|d|w) APOSTROPHE"`
finds the leftmost occurrence of a storage marker anywhere in the (lowercased)
string and maps it to 1, 4 or 2 bytes; absent means 0. -/
def literalStorage : List Char → Nat
  | [] => 0
  | [_] => 0
  | c :: c2 :: rest =>
    if c = 'b' ∧ c2 = '\'' then 1
    else if c = 'd' ∧ c2 = '\'' then 4
    else if c = 'w' ∧ c2 = '\'' then 2
    else literalStorage (c2 :: rest)

/-- `LiteralUnary` (src/spl.py lines 603-619): the regex anchored at the
start matches an optional leading sign character; `-` gives -2 (two's
complement), `~` gives -1 (one's complement), `+` gives 1, none gives 0. -/
def literalUnary : List Char → Int
  | '-' :: _ => -2
  | '~' :: _ => -1
  | '+' :: _ => 1
  | _ => 0

/-- `LitIntBound` (src/spl.py lines 626-638), verbatim: for one byte the
magnitude passes when `mag <= 2^7` or (`sign >= 0` and `mag < 2^8`), and
analogously for two and four bytes; any other size always passes. -/
def litIntBound (sign : Int) (mag : Nat) (size : Nat) : Bool :=
  if size = 1 then
    decide (mag ≤ 2 ^ 7) || (decide (sign ≥ 0) && decide (mag < 2 ^ 8))
  else if size = 2 then
    decide (mag ≤ 2 ^ 15) || (decide (sign ≥ 0) && decide (mag < 2 ^ 16))
  else if size = 4 then
    decide (mag ≤ 2 ^ 31) || (decide (sign ≥ 0) && decide (mag < 2 ^ 32))
  else
    true

/-- Decimal digit test, `[0-9]`. -/
def isDec (c : Char) : Bool := '0' ≤ c && c ≤ '9'

/-- Nonzero decimal digit test, `[1-9]`. -/
def isDec19 (c : Char) : Bool := '1' ≤ c && c ≤ '9'

/-- Lowercase hexadecimal digit test, `[0-9a-f]` (the strings scanned have
already been lowercased). -/
def isHexLower (c : Char) : Bool := isDec c || ('a' ≤ c && c ≤ 'f')

/-- Binary digit test, `[01]`. -/
def isBin (c : Char) : Bool := c = '0' || c = '1'

/-- Octal digit test, `[0-7]`. -/
def isOct (c : Char) : Bool := '0' ≤ c && c ≤ '7'

/-- Value of one digit character. -/
def digitVal (c : Char) : Nat :=
  if '0' ≤ c ∧ c ≤ '9' then c.toNat - '0'.toNat
  else if 'a' ≤ c ∧ c ≤ 'f' then c.toNat - 'a'.toNat + 10
  else 0

/-- `int(s, base)` on a list of digit characters. -/
def digitsVal (base : Nat) (ds : List Char) : Nat :=
  ds.foldl (fun a c => base * a + digitVal c) 0

/-- `re.search "[1-9]+[0-9]*$"` (src/spl.py line 661): the leftmost
position from which the rest of the string is a digit run starting with a
nonzero digit; returns the matched suffix.  (Python's `$` would also match
just before one trailing newline; every caller reaches this only for
strings accepted by the newline-free `re.fullmatch` recognizers, where the
two semantics agree.) -/
def decimalSuffix : List Char → Option (List Char)
  | [] => none
  | c :: cs =>
    if isDec19 c && cs.all isDec then some (c :: cs) else decimalSuffix cs

/-- `re.search "0b[01]+$"` (src/spl.py line 695): leftmost suffix of the
form `0b` followed by a nonempty binary digit run. -/
def binarySuffix : List Char → Option (List Char)
  | [] => none
  | c :: cs =>
    if c = '0' &&
       (match cs with
        | 'b' :: ds => decide (ds ≠ []) && ds.all isBin
        | _ => false) then some (c :: cs)
    else binarySuffix cs

/-- `re.search "0[0-7]*$"` (src/spl.py line 729): leftmost suffix of the
form `0` followed by octal digits. -/
def octalSuffix : List Char → Option (List Char)
  | [] => none
  | c :: cs =>
    if c = '0' && cs.all isOct then some (c :: cs) else octalSuffix cs

/-- `re.search "0x[0-9a-f]+$"` (src/spl.py line 763): leftmost suffix of
the form `0x` followed by a nonempty hex digit run. -/
def hexSuffix : List Char → Option (List Char)
  | [] => none
  | c :: cs =>
    if c = '0' &&
       (match cs with
        | 'x' :: ds => decide (ds ≠ []) && ds.all isHexLower
        | _ => false) then some (c :: cs)
    else hexSuffix cs

/-- Value of the group returned by `decimalSuffix` under `int(-, 10)`. -/
def decGroupVal (g : List Char) : Nat := digitsVal 10 g

/-- Value of a `0x...` group under `int(-, 16)` (Python accepts the `0x`
prefix when the base is 16). -/
def hexGroupVal : List Char → Nat
  | '0' :: 'x' :: ds => digitsVal 16 ds
  | g => digitsVal 16 g

/-- Value of a `0b...` group under `int(-, 2)`. -/
def binGroupVal : List Char → Nat
  | '0' :: 'b' :: ds => digitsVal 2 ds
  | g => digitsVal 2 g

/-- Value of a `0...` group under `int(-, 8)`. -/
def octGroupVal (g : List Char) : Nat := digitsVal 8 g

/-- Lowercase then strip underscore characters, the preprocessing shared
by all the numeric parsers (`t = s.lower()`, `t = t.replace('_','')`). -/
def lowerNoUnderscore (s : String) : List Char :=
  (s.data.map Char.toLower).filter (fun c => c ≠ '_')

/-- `Decimal` (src/spl.py lines 644-672): read sign and storage from the
lowercased text, strip underscores, extract the digit run, bounds-check
only when a storage size was given, and package a `LiteralInt` carrying
the original text. -/
def splDecimal (s : String) : Except Err LiteralInt :=
  let t := s.data.map Char.toLower
  let sign := literalUnary t
  let size := literalStorage t
  let t := t.filter (fun c => c ≠ '_')
  match decimalSuffix t with
  | some g =>
    let mag := decGroupVal g
    let bound := if size > 0 then litIntBound sign mag size else true
    .ok ⟨sign, mag, size, 10, bound, s⟩
  | none => .error (.diag ("Illegal decimal number: " ++ s))

/-- `Binary` (src/spl.py lines 678-706), same shape with base 2. -/
def splBinary (s : String) : Except Err LiteralInt :=
  let t := s.data.map Char.toLower
  let sign := literalUnary t
  let size := literalStorage t
  let t := t.filter (fun c => c ≠ '_')
  match binarySuffix t with
  | some g =>
    let mag := binGroupVal g
    let bound := if size > 0 then litIntBound sign mag size else true
    .ok ⟨sign, mag, size, 2, bound, s⟩
  | none => .error (.diag ("Illegal binary number: " ++ s))

/-- `Octal` (src/spl.py lines 712-740), same shape with base 8. -/
def splOctal (s : String) : Except Err LiteralInt :=
  let t := s.data.map Char.toLower
  let sign := literalUnary t
  let size := literalStorage t
  let t := t.filter (fun c => c ≠ '_')
  match octalSuffix t with
  | some g =>
    let mag := octGroupVal g
    let bound := if size > 0 then litIntBound sign mag size else true
    .ok ⟨sign, mag, size, 8, bound, s⟩
  | none => .error (.diag ("Illegal octal number: " ++ s))

/-- `Hexadecimal` (src/spl.py lines 746-775), same shape with base 16. -/
def splHexadecimal (s : String) : Except Err LiteralInt :=
  let t := s.data.map Char.toLower
  let sign := literalUnary t
  let size := literalStorage t
  let t := t.filter (fun c => c ≠ '_')
  match hexSuffix t with
  | some g =>
    let mag := hexGroupVal g
    let bound := if size > 0 then litIntBound sign mag size else true
    .ok ⟨sign, mag, size, 16, bound, s⟩
  | none => .error (.diag ("Illegal hexadecimal number: " ++ s))

/-- Optional sign of the recognizer regexes, `(-|~)?` — note that `+` is
NOT among the alternatives (src/spl.py lines 841, 854, 866, 879). -/
def checkSignOpt : List Char → List Char
  | '-' :: r => r
  | '~' :: r => r
  | t => t

/-- Optional storage marker of the recognizer regexes,
`(b APOSTROPHE|d APOSTROPHE|w APOSTROPHE)?`. -/
def checkStorageOpt : List Char → List Char
  | 'b' :: '\'' :: r => r
  | 'd' :: '\'' :: r => r
  | 'w' :: '\'' :: r => r
  | t => t

/-- Body of the decimal recognizer, `[1-9_]+[0-9_]*`: equivalently a
nonempty run whose head is in `[1-9_]` and whose tail is in `[0-9_]`. -/
def decCheckBody : List Char → Bool
  | [] => false
  | c :: cs => (isDec19 c || c = '_') && cs.all (fun d => isDec d || d = '_')

/-- `CheckDecimal` (src/spl.py lines 837-844):
`re.fullmatch "^(-|~)?(b APOS|d APOS|w APOS)?[1-9_]+[0-9_]*$"` on the
lowercased string.  The optional groups strip deterministically because no
sign or storage character can begin the body. -/
def checkDecimal (s : String) : Bool :=
  decCheckBody (checkStorageOpt (checkSignOpt (s.data.map Char.toLower)))

/-- Body of the octal recognizer, `0[0-7_]*`. -/
def octCheckBody : List Char → Bool
  | '0' :: cs => cs.all (fun d => isOct d || d = '_')
  | _ => false

/-- `CheckOctal` (src/spl.py lines 850-857). -/
def checkOctal (s : String) : Bool :=
  octCheckBody (checkStorageOpt (checkSignOpt (s.data.map Char.toLower)))

/-- Body of the hexadecimal recognizer, `0x[0-9a-f_]+`. -/
def hexCheckBody : List Char → Bool
  | '0' :: 'x' :: cs => decide (cs ≠ []) && cs.all (fun d => isHexLower d || d = '_')
  | _ => false

/-- `CheckHexadecimal` (src/spl.py lines 862-869). -/
def checkHexadecimal (s : String) : Bool :=
  hexCheckBody (checkStorageOpt (checkSignOpt (s.data.map Char.toLower)))

/-- Body of the binary recognizer, `0b[01_]+`. -/
def binCheckBody : List Char → Bool
  | '0' :: 'b' :: cs => decide (cs ≠ []) && cs.all (fun d => isBin d || d = '_')
  | _ => false

/-- `CheckBinary` (src/spl.py lines 875-882). -/
def checkBinary (s : String) : Bool :=
  binCheckBody (checkStorageOpt (checkSignOpt (s.data.map Char.toLower)))

/-- `isNumber` (src/spl.py lines 888-898): empty strings are rejected,
otherwise the four recognizers are tried (the source tests
`CheckHexadecimal` twice, kept here verbatim). -/
def isNumber (s : String) : Bool :=
  if s.data = [] then false
  else
    checkDecimal s || checkHexadecimal s || checkHexadecimal s ||
      checkBinary s || checkOctal s

/-- `LiteralInteger` (src/spl.py lines 811-831): dispatch on the first
matching recognizer; a non-number returns Python's `()`, modelled as
`none`. -/
def literalInteger (s : String) : Except Err (Option LiteralInt) :=
  if isNumber s then
    if checkDecimal s then (splDecimal s).map some
    else if checkHexadecimal s then (splHexadecimal s).map some
    else if checkBinary s then (splBinary s).map some
    else if checkOctal s then (splOctal s).map some
    else .error (.diag ("Invalid literal " ++ s))
  else .ok none

/-- `re.search` with pattern `"^[0-9]*$"` (src/spl.py line 792): without
`re.MULTILINE`, `$` matches at the end of the string or just before one
newline at the very end, so the pattern matches exactly the strings that
are a (possibly empty) digit run optionally followed by one final
newline; the group is the digit run.  This helper removes that one
trailing newline. -/
def dropTrailingNewline (t : List Char) : List Char :=
  match t.getLast? with
  | some c => if c = '\n' then t.dropLast else t
  | none => t

/-- The hexadecimal alternative of `Number`, `re.search "^0x[0-9a-f]+$"`
(src/spl.py line 798), applied after `dropTrailingNewline` has handled
the `$` quirk. -/
def simpleHexMatch : List Char → Bool
  | '0' :: 'x' :: ds => decide (ds ≠ []) && ds.all isHexLower
  | _ => false

/-- `Number` (src/spl.py lines 781-805), the "simple number" acceptor used
for command options and variable sizes: lowercase, strip underscores; an
all-digit string (see `dropTrailingNewline` for the `$` subtlety) is read
in base 10 — `int ""` raises `ValueError` when the digit run is empty —
otherwise a `0x` hex string is read in base 16, and any other string
yields 0 with no error. -/
def splSimpleNumber (s : String) : Except Err Nat :=
  let t := lowerNoUnderscore s
  if (dropTrailingNewline t).all isDec then
    match dropTrailingNewline t with
    | [] => .error .valueError
    | g => .ok (decGroupVal g)
  else if simpleHexMatch (dropTrailingNewline t) then
    .ok (hexGroupVal (dropTrailingNewline t))
  else
    .ok 0

/-- Left-pad a digit list with zeros to the given width (Python's
`format(-, '04X')` and friends pad but never truncate). -/
def padZeros (w : Nat) (ds : List Char) : List Char :=
  List.replicate (w - ds.length) '0' ++ ds

/-- `CompileWord` (src/spl.py lines 1522-1536): mask to 16 bits (Python's
`num & 0xFFFF` on an `int` of any sign equals `num mod 2^16`) and format
per base: `$` + 4 uppercase hex digits, `@` + 5 octal digits, `%` + 16
binary digits, or plain decimal. -/
def compileWord (num : Int) (base : Nat) : String :=
  let m := (num.emod 65536).toNat
  if base = 16 then String.mk ('$' :: padZeros 4 ((Nat.toDigits 16 m).map Char.toUpper))
  else if base = 8 then String.mk ('@' :: padZeros 5 (Nat.toDigits 8 m))
  else if base = 2 then String.mk ('%' :: padZeros 16 (Nat.toDigits 2 m))
  else toString m

/-- One emitted instruction record: `[label, mnemonic, operand]`. -/
abbrev Instr := String × String × String

/-- The slice of compiler state that `CompileNumber` touches: the
`-verbose` flag and the function instruction buffer `self.fasm`. -/
structure FState where
  verbose : Bool
  fasm : List Instr
  deriving Repr, DecidableEq

/-- `CompileNumber` (src/spl.py lines 1562-1636): parse the token again,
raise the out-of-bounds diagnostic when the bounds flag is false, then
push the literal: doubles as two word pushes (LSW first), bytes and words
as one word push, with the sign marker applied first (`~mag` is Python's
`-(mag+1)`; `>> 16` on a negative Python int is a floor division by
`2^16`, i.e. `Int.fdiv`).  A verbose run first appends a comment record.
The `.ok none` case is a non-number token: Python would then evaluate
`().bound` and die with `AttributeError` (unreachable from
`CompileFunctions`, which guards with `isNumber`). -/
def compileNumber (st : FState) (token : String) : Except Err FState :=
  match literalInteger token with
  | .error e => .error e
  | .ok none => .error .attributeError
  | .ok (some n) =>
    if n.bound = false then
      .error (.diag ("Value out of bounds : " ++ token))
    else if n.size = 4 then
      if n.sign = -1 then
        let c := if st.verbose then
          [((";; Push doubleword " ++ n.text ++ " onto stack (1C, LSW first)" : String), ("" : String), ("" : String))] else []
        .ok { st with fasm := st.fasm ++ c ++
          [("", "LDD", "#" ++ compileWord (-(n.mag : Int) - 1) n.base),
           ("", "PSHU", "D"),
           ("", "LDD", "#" ++ compileWord ((-(n.mag : Int) - 1).fdiv 65536) n.base),
           ("", "PSHU", "D")] }
      else if n.sign = -2 then
        let c := if st.verbose then
          [((";; Push doubleword " ++ n.text ++ " onto stack (2C, LSW first)" : String), ("" : String), ("" : String))] else []
        .ok { st with fasm := st.fasm ++ c ++
          [("", "LDD", "#" ++ compileWord (0 - (n.mag : Int)) n.base),
           ("", "PSHU", "D"),
           ("", "LDD", "#" ++ compileWord ((0 - (n.mag : Int)).fdiv 65536) n.base),
           ("", "PSHU", "D")] }
      else
        let c := if st.verbose then
          [((";; Push doubleword " ++ n.text ++ " onto stack (LSW first)" : String), ("" : String), ("" : String))] else []
        .ok { st with fasm := st.fasm ++ c ++
          [("", "LDD", "#" ++ compileWord (n.mag : Int) n.base),
           ("", "PSHU", "D"),
           ("", "LDD", "#" ++ compileWord ((n.mag / 65536 : Nat) : Int) n.base),
           ("", "PSHU", "D")] }
    else if n.size = 2 ∨ n.size = 0 then
      if n.sign = -1 then
        let c := if st.verbose then
          [((";; Push word " ++ n.text ++ " onto stack (1C)" : String), ("" : String), ("" : String))] else []
        .ok { st with fasm := st.fasm ++ c ++
          [("", "LDD", "#" ++ compileWord (-(n.mag : Int) - 1) n.base),
           ("", "PSHU", "D")] }
      else if n.sign = -2 then
        let c := if st.verbose then
          [((";; Push word " ++ n.text ++ " onto stack (2C)" : String), ("" : String), ("" : String))] else []
        .ok { st with fasm := st.fasm ++ c ++
          [("", "LDD", "#" ++ compileWord (0 - (n.mag : Int)) n.base),
           ("", "PSHU", "D")] }
      else
        let c := if st.verbose then
          [((";; Push word " ++ n.text ++ " onto stack" : String), ("" : String), ("" : String))] else []
        .ok { st with fasm := st.fasm ++ c ++
          [("", "LDD", "#" ++ compileWord (n.mag : Int) n.base),
           ("", "PSHU", "D")] }
    else if n.size = 1 then
      if n.sign = -1 then
        let c := if st.verbose then
          [((";; Push byte " ++ n.text ++ " onto stack as word (1C)" : String), ("" : String), ("" : String))] else []
        .ok { st with fasm := st.fasm ++ c ++
          [("", "LDD", "#" ++ compileWord (-((n.mag % 256 : Nat) : Int) - 1) n.base),
           ("", "PSHU", "D")] }
      else if n.sign = -2 then
        let c := if st.verbose then
          [((";; Push byte " ++ n.text ++ " onto stack as word (2C)" : String), ("" : String), ("" : String))] else []
        .ok { st with fasm := st.fasm ++ c ++
          [("", "LDD", "#" ++ compileWord (0 - ((n.mag % 256 : Nat) : Int)) n.base),
           ("", "PSHU", "D")] }
      else
        let c := if st.verbose then
          [((";; Push byte " ++ n.text ++ " onto stack as word" : String), ("" : String), ("" : String))] else []
        .ok { st with fasm := st.fasm ++ c ++
          [("", "LDD", "#" ++ compileWord ((n.mag % 256 : Nat) : Int) n.base),
           ("", "PSHU", "D")] }
    else
      .ok st

/-- The default code origin `ORG = 0x4000` (src/spl.py line 114). -/
def ORG : Nat := 0x4000

/-- The initial value of `self.org` in `SetOrigin` (src/spl.py lines
1143-1147): the command-line origin when one was given (the sentinel for
"not given" is -1), else the configured default.  `cmdOrigin` is either
-1 or a `Number` result, hence never negative otherwise. -/
def initOrg (cmdOrigin : Int) : Nat :=
  if cmdOrigin ≠ -1 then cmdOrigin.toNat else ORG

/-- The token scan of `SetOrigin` (src/spl.py lines 1149-1168), which
returns `some r` when the loop raises or returns early (an `org` inside a
function body is fatal; the token after a top-level `org` is read with
`Number`, range-checked, and returned immediately), and `none` when the
loop runs off the end of the token list without reaching an `org`
argument.  `self.org` is only assigned inside the early-return branch, so
the scan is independent of the initial origin. -/
def orgScan : List String → Bool → Bool → Option (Except Err Nat)
  | [], _, _ => none
  | i :: rest, next, indef =>
    if i = "org" then
      if indef then some (.error (.diag "Origin statements cannot be within functions."))
      else orgScan rest true indef
    else if i = "def" then orgScan rest next true
    else if i = ":" then orgScan rest next true
    else if i = "end" then orgScan rest next false
    else if i = ";" then orgScan rest next false
    else if next then
      some (match splSimpleNumber i with
            | .error e => .error e
            | .ok v =>
              if v > 65535 then .error (.diag ("Illegal origin address: " ++ toString v))
              else .ok v)
    else orgScan rest next indef

/-- `SetOrigin` (src/spl.py lines 1140-1168): start from the command-line
origin (or the default), then scan the token stream — a top-level
`org N` statement overwrites `self.org` and returns at once. -/
def setOrigin (cmdOrigin : Int) (tokens : List String) : Except Err Nat :=
  match orgScan tokens false false with
  | some r => r
  | none => .ok (initOrg cmdOrigin)

/-- The compiler options gathered by `ParseCommandLine` (src/spl.py lines
940-993) together with the two globals it writes through: `self.VARTOP`
(default `VARTOP = 0xFF8F`, line 120) and `EQUATES["stack"]` (default
`VARINT = 0x8000`, lines 121, 127).  `cmdOrigin` starts at the sentinel
-1 (set in `Compile`, line 3055). -/
structure CmdState where
  sys : Bool
  warn : Bool
  verbose : Bool
  debug : Bool
  files : List String
  outname : String
  outtype : String
  cmdOrigin : Int
  vartop : Nat
  stackBase : Nat
  deriving Repr, DecidableEq

/-- The state `ParseCommandLine` starts from (defaults at src/spl.py
lines 944-954, 3054-3055, 120-121). -/
def initCmdState : CmdState :=
  ⟨false, false, false, false, [], "out", "asm", -1, 0xFF8F, 0x8000⟩

/-- The argument loop of `ParseCommandLine` (src/spl.py lines 956-993):
`next` remembers which option is waiting for a value; an unrecognized
argument is consumed by the pending option (through `Number` for `-org`,
`-var`, `-stack`) or collected as a source file name.  Note that a flag
token always takes its flag meaning, even while a value is pending. -/
def parseCmdLoop : List String → Nat → CmdState → Except Err CmdState
  | [], _, st => .ok st
  | s :: rest, next, st =>
    if s = "-o" then parseCmdLoop rest 1 st
    else if s = "-t" then parseCmdLoop rest 2 st
    else if s = "-org" then parseCmdLoop rest 3 st
    else if s = "-var" then parseCmdLoop rest 4 st
    else if s = "-stack" then parseCmdLoop rest 5 st
    else if s = "-sys" then parseCmdLoop rest next { st with sys := true }
    else if s = "-warn" then parseCmdLoop rest next { st with warn := true }
    else if s = "-verbose" then parseCmdLoop rest next { st with verbose := true }
    else if s = "-debug" then parseCmdLoop rest next { st with debug := true }
    else if next = 1 then parseCmdLoop rest 0 { st with outname := s }
    else if next = 2 then parseCmdLoop rest 0 { st with outtype := s }
    else if next = 3 then
      match splSimpleNumber s with
      | .ok v => parseCmdLoop rest 0 { st with cmdOrigin := (v : Int) }
      | .error e => .error e
    else if next = 4 then
      match splSimpleNumber s with
      | .ok v => parseCmdLoop rest 0 { st with vartop := v }
      | .error e => .error e
    else if next = 5 then
      match splSimpleNumber s with
      | .ok v => parseCmdLoop rest 0 { st with stackBase := v }
      | .error e => .error e
    else parseCmdLoop rest next { st with files := st.files ++ [s] }

/-- `ParseCommandLine` applied to `sys.argv[1:]`. -/
def parseCommandLine (args : List String) : Except Err CmdState :=
  parseCmdLoop args 0 initCmdState

/-- The lexer state of `Tokenize` (src/spl.py lines 1028-1127): the
finished token list, the token being accumulated `t`, the pending
delimiter, and the four mode flags (`inString`, `inComment`, `inCode`,
`inToken`), tested in that order. -/
structure TokState where
  tokens : List String
  t : List Char
  delim : Char
  inString : Bool
  inComment : Bool
  inCode : Bool
  inToken : Bool
  deriving Repr, DecidableEq

/-- The state `Tokenize` starts from. -/
def initTokState : TokState := ⟨[], [], ' ', false, false, false, false⟩

/-- One character step of `Tokenize` (src/spl.py lines 1039-1126),
translated branch for branch.  Whitespace is any character `<= " "`,
i.e. with code point at most 32. -/
def tokStep (st : TokState) (c : Char) : TokState :=
  if st.inString then
    if c = st.delim then
      { st with tokens := st.tokens ++ [String.mk (st.t ++ [c])], t := [], inString := false }
    else
      { st with t := st.t ++ [c] }
  else if st.inComment then
    if c = st.delim then
      if st.delim = '*' then { st with delim := '/' }
      else if st.delim = '/' then { st with t := [], inComment := false }
      else if st.delim = '\n' then { st with t := [], inComment := false }
      else st
    else if st.delim ≠ '\n' then { st with delim := '*' }
    else st
  else if st.inCode then
    if st.t = [] ∧ c = '\n' then st
    else if c = st.delim then
      if st.delim = '#' then { st with t := st.t ++ [c], delim := '/' }
      else if st.delim = '/' then
        { st with tokens := st.tokens ++ [String.mk (st.t ++ [c])], t := [], inCode := false }
      else st
    else { st with delim := '#', t := st.t ++ [c] }
  else if st.inToken then
    if st.t = ['/'] ∧ c = '#' then
      { st with t := st.t ++ [c], inCode := true, inToken := false, delim := '#' }
    else if st.t = ['/'] ∧ c = '*' then
      { st with t := [], inComment := true, inToken := false, delim := '*' }
    else if c ≤ ' ' then
      { st with inToken := false, tokens := st.tokens ++ [String.mk st.t], t := [] }
    else
      { st with t := st.t ++ [c] }
  else
    if c = '"' ∨ c = '\'' then
      { st with inString := true, delim := c, t := [c] }
    else if c = '#' then
      { st with inComment := true, delim := '\n', t := [] }
    else if c ≤ ' ' then st
    else
      { st with t := st.t ++ [c], inToken := true }

/-- `Tokenize` (src/spl.py lines 1028-1134): fold the step over the
source characters; a token still being accumulated when the input ends —
an unterminated string, comment, code block or plain token — is
discarded, because nothing after the loop appends it. -/
def tokenize (source : List Char) : List String :=
  (source.foldl tokStep initTokState).tokens

/-- `tokenize` on a Lean string literal. -/
def tokenizeStr (source : String) : List String := tokenize source.data

/-- Symbol-table kinds (the string tags used in `self.symtbl`). -/
inductive Kind where
  | VAR | CONST | STR | DATA | CODE | FUNC | LIB | KWD | CORE
  deriving Repr, DecidableEq

/-- Python dict assignment `m[k] = v` on an insertion-ordered association
list: replace the value at an existing key in place, otherwise append the
new pair at the end. -/
def dictSet {α : Type} (m : List (String × α)) (k : String) (v : α) : List (String × α) :=
  match m with
  | [] => [(k, v)]
  | (k', v') :: rest => if k' = k then (k', v) :: rest else (k', v') :: dictSet rest k v

/-- Python lookup `m[k]` where the key is known to be present; reading an
absent key with `.getD` stands for code paths the claims never reach with
an absent key. -/
def dictGetB (m : List (String × Bool)) (k : String) : Bool :=
  (m.lookup k).getD false

/-- The keyword entries that `Keywords` (src/spl.py lines 2243-2256)
installs into `self.symtbl`, in source order. -/
def keywordNames : List String :=
  ["\x7b", "\x7d", "if", "0if", "else", "then", "break", "cont",
   "?break", "?cont", "?0break", "?0cont", "&", "return"]

/-- The core-word entries that `Corewords` (src/spl.py lines 2285-2334)
installs into `self.symtbl`, in source order (the source writes `~` and
`+!` twice; dict assignment makes that a no-op, and it also lists the
stray names `+1` — a typo for `1+`, which therefore is NOT a core word —
without a matching entry in the dispatch dictionary). -/
def corewordNames : List String :=
  ["drop", "2drop", "dup", "2dup", "nip", "over", "rot", "swap", "2swap",
   "b.and", "b.or", "b.xor", "~",
   "+", "-", "1+", "2+", "1-", "2-", "*", "/", "mod", "negate",
   "!", "c!", "d!", "@", "c@", "d@", "+!", "+1", "c++", "--", "c--",
   ">x", "x>", ">y", "y>", ">d", "d>"]

/-- `self.symtbl` after `Keywords` and `Corewords` have run (`Compile`,
src/spl.py lines 3066-3067), before any declarations are scanned. -/
def baseSymtbl : List (String × Kind) :=
  (keywordNames.map (fun k => (k, Kind.KWD))) ++
    (corewordNames.map (fun k => (k, Kind.CORE)))

/-- `self.symtbl` for a program whose declarations are exactly the given
functions: `ParseFunctions` (src/spl.py line 1381) writes
`symtbl[name] = "FUNC"` for each declared function, in declaration
order. -/
def funcSymtbl (funcs : List (String × List String)) : List (String × Kind) :=
  funcs.foldl (fun m p => dictSet m p.1 Kind.FUNC) baseSymtbl

/-- The `self.referenced` map right after `ParseFunctions` (src/spl.py
line 1382): every declared function mapped to `False`. -/
def initReferenced (funcs : List (String × List String)) : List (String × Bool) :=
  funcs.map (fun p => (p.1, false))

/-- `TagFunctions` (src/spl.py lines 1395-1402): one pass over ALL
function bodies — reachable or not — marking every token whose
symbol-table kind is `FUNC` as referenced. -/
def tagFunctions (symtbl : List (String × Kind)) (funcs : List (String × List String))
    (referenced : List (String × Bool)) : List (String × Bool) :=
  funcs.foldl
    (fun refs p =>
      p.2.foldl
        (fun r token =>
          if symtbl.lookup token = some Kind.FUNC then dictSet r token true else r)
        refs)
    referenced

/-- The `self.referenced` map as `CompileFunctions` consults it: after
`TagFunctions` and after `LocateStringConstants` has forced
`referenced["main"] = True` (src/spl.py line 1433). -/
def finalReferenced (funcs : List (String × List String)) : List (String × Bool) :=
  dictSet (tagFunctions (funcSymtbl funcs) funcs (initReferenced funcs)) "main" true

/-- The functions whose compiled bodies reach the emitted output:
`CompileFunctions` (src/spl.py lines 2492-2497) emits a subroutine label
and body for exactly the functions with `self.referenced[f]` true, and
`AssemblyOutput` (line 2658) writes that buffer out verbatim. -/
def compiledFunctionNames (funcs : List (String × List String)) : List String :=
  (funcs.filter (fun p => dictGetB (finalReferenced funcs) p.1)).map (fun p => p.1)

/-- Modelled from the spec claim wording: the set of functions reachable
from `main`, where a function is reachable if its name appears as a token
in the body of `main` or of another reachable function.  Computed as a
fixpoint iteration, `funcs.length` rounds being enough to close. -/
def specReachStep (funcs : List (String × List String)) (acc : List String) : List String :=
  acc ++ (funcs.filter
    (fun p => p.1 ∉ acc ∧ ∃ q ∈ funcs, q.1 ∈ acc ∧ p.1 ∈ q.2)).map (fun p => p.1)

/-- Modelled from the spec claim wording: `true` when `f` is `main` or is
referenced directly or transitively from `main`. -/
def specReachableFromMain (funcs : List (String × List String)) (f : String) : Bool :=
  f ∈ Nat.iterate (specReachStep funcs) funcs.length ["main"]

/-- `isStringConstant` (src/spl.py lines 1408-1411): first and last
character equal and a quote character.  Python indexes `token[0]` and
`token[-1]`, which raises `IndexError` on an empty token; the lexer never
produces one, and the theorems below carry that as a hypothesis. -/
def isStringConstant (token : String) : Bool :=
  match token.data with
  | [] => false
  | c :: cs => decide ((c :: cs).getLast (List.cons_ne_nil c cs) = c) &&
      (c = '"' || c = '\'')

/-- Uppercase hexadecimal digits of `n`, zero-padded to width 4
(`"%04X" % n`). -/
def hexPad4 (n : Nat) : List Char :=
  padZeros 4 ((Nat.toDigits 16 n).map Char.toUpper)

/-- `StringConstantName` (src/spl.py lines 1417-1422): the generated name
`"STR_%04X" % self.stringCount`. -/
def strConstantName (n : Nat) : String :=
  String.mk ('S' :: 'T' :: 'R' :: '_' :: hexPad4 n)

/-- The compiler state threaded through declaration processing and
string hoisting: the per-function token lists, the referenced map, the
string table, the symbol table, the names map, and the string counter. -/
structure CState where
  funcs : List (String × List String)
  referenced : List (String × Bool)
  strTbl : List (String × String)
  symtbl : List (String × Kind)
  names : List (String × String)
  stringCount : Nat
  deriving Repr, DecidableEq

/-- The inner token walk of `LocateStringConstants` (src/spl.py lines
1439-1447) over one function body: a string-constant token is replaced by
a fresh generated name, which is recorded in the string table, the symbol
table and — via `AddName` (lines 1174-1180), fatal on a duplicate — the
names map. -/
def hoistTokens (st : CState) : List String → Except Err (CState × List String)
  | [] => .ok (st, [])
  | tok :: rest =>
    if isStringConstant tok then
      let name := strConstantName st.stringCount
      let st1 : CState :=
        { st with stringCount := st.stringCount + 1,
                  strTbl := dictSet st.strTbl name tok,
                  symtbl := dictSet st.symtbl name Kind.STR }
      if (st1.names.lookup name).isSome then
        .error (.diag ("Duplicate name found: " ++ name))
      else
        let st2 : CState := { st1 with names := dictSet st1.names name name }
        match hoistTokens st2 rest with
        | .ok (st', rest') => .ok (st', name :: rest')
        | .error e => .error e
    else
      match hoistTokens st rest with
      | .ok (st', rest') => .ok (st', tok :: rest')
      | .error e => .error e

/-- The outer loop of `LocateStringConstants` (src/spl.py lines
1436-1447): process the body of every referenced function, in function
order, leaving unreferenced bodies untouched. -/
def hoistFuncs (refs : List (String × Bool)) (st : CState) :
    List (String × List String) → Except Err (CState × List (String × List String))
  | [] => .ok (st, [])
  | (k, body) :: rest =>
    if dictGetB refs k then
      match hoistTokens st body with
      | .ok (st1, body') =>
        match hoistFuncs refs st1 rest with
        | .ok (st', rest') => .ok (st', (k, body') :: rest')
        | .error e => .error e
      | .error e => .error e
    else
      match hoistFuncs refs st rest with
      | .ok (st', rest') => .ok (st', (k, body) :: rest')
      | .error e => .error e

/-- `LocateStringConstants` (src/spl.py lines 1428-1447): force
`referenced["main"] = True`, then hoist every string constant out of
every referenced function body. -/
def locateStringConstants (st : CState) : Except Err CState :=
  let refs := dictSet st.referenced "main" true
  match hoistFuncs refs { st with referenced := refs } st.funcs with
  | .ok (st', funcs') => .ok { st' with funcs := funcs', referenced := refs }
  | .error e => .error e

/-- The slice of compiler state used by the control-flow keyword
compilers: the label counter, the loop stack (continue label, break
label) and the instruction buffer. -/
structure LoopState where
  counter : Nat
  loop : List (String × String)
  fasm : List Instr
  deriving Repr, DecidableEq

/-- Decimal digits of `n` zero-padded to width at least 5
(`"%05d" % n`). -/
def decPad5 (n : Nat) : List Char :=
  padZeros 5 (Nat.toDigits 10 n)

/-- `GetLabel` (src/spl.py lines 570-575): `name + "_A%05d"` with the
session counter, which then increments. -/
def getLabel (name : String) (counter : Nat) : String × Nat :=
  (String.mk (name.data ++ '_' :: 'A' :: decPad5 counter), counter + 1)

/-- `CompileLoopBegin` (src/spl.py lines 1697-1702): emit the continue
label and push a fresh (continue, break) pair on the loop stack. -/
def compileLoopBegin (st : LoopState) : LoopState :=
  let (t, c1) := getLabel "loop" st.counter
  let (t2, c2) := getLabel "loop2" c1
  { st with counter := c2,
            fasm := st.fasm ++ [(t, "", "")],
            loop := st.loop ++ [(t, t2)] }

/-- `CompileLoopEnd` (src/spl.py lines 1708-1717): underflow is fatal;
otherwise pop, branch back to the continue label and emit the break
label. -/
def compileLoopEnd (st : LoopState) : Except Err LoopState :=
  if st.loop = [] then .error (.diag "Loop underflow!")
  else
    match st.loop.getLast? with
    | none => .error (.diag "Loop underflow!")
    | some t =>
      .ok { st with loop := st.loop.dropLast,
                    fasm := st.fasm ++ [("", "JMP", t.1), (t.2, "", "")] }

/-- `CompileBreak` (src/spl.py lines 1789-1793): `self.loop[-1]` raises
`IndexError` outside a loop (no underflow check here); otherwise append
an unconditional `JMP` to the break label. -/
def compileBreak (st : LoopState) : Except Err LoopState :=
  match st.loop.getLast? with
  | none => .error .indexError
  | some t => .ok { st with fasm := st.fasm ++ [("", "JMP", t.2)] }

/-- `CompileCont` (src/spl.py lines 1798-1802): after reading
`self.loop[-1]` (IndexError outside a loop) the source appends to
`self.fasam` — an attribute never assigned anywhere in the class (the
instruction buffer is `self.fasm`) — so Python raises `AttributeError`
and nothing is ever appended to the instruction buffer. -/
def compileCont (st : LoopState) : Except Err LoopState :=
  match st.loop.getLast? with
  | none => .error .indexError
  | some _ => .error .attributeError

/-- The library-word dependency table, `DEPENDENCIES` (src/spl.py lines 151-360).
The Python dict literal lists the key "dprint" twice; dict semantics keep the
last value, which is the one recorded here. -/
def DEPENDENCIES : List (String × List String) := [
  ("0trim", []),
  ("abs", ["get_ab", "comp_tb"]),
  ("accept", []),
  ("add1", []),
  ("addstore", ["get_ab"]),
  ("ampdot", ["get_ta", "get_op1"]),
  ("and", ["get_ab", "push"]),
  ("booland", ["get_ab", "push"]),
  ("areg", []),
  ("fetch", ["get_ta", "push"]),
  ("dfetch", ["get_ta", "push"]),
  ("cfetch", ["get_ta", "push"]),
  ("b_and", ["get_tb", "pop", "push"]),
  ("bclr", ["get_ab", "push"]),
  ("b_or", ["get_tb", "push"]),
  ("bset", ["get_ab", "push"]),
  ("btest", ["get_ab", "push"]),
  ("btoa", ["ptrout"]),
  ("btod", []),
  ("b_xor", ["get_tb", "pop", "push"]),
  ("bye", []),
  ("call", []),
  ("chout", []),
  ("ch", ["pop"]),
  ("cls", []),
  ("cmove", ["get_ta", "get_tb"]),
  ("cmoveb", ["get_ta", "get_op1"]),
  ("comp", ["pop", "push"]),
  ("comp_ta", []),
  ("comp_tb", []),
  ("copy", []),
  ("count", ["get_tb", "push", "plus1"]),
  ("cprhex", []),
  ("cr", []),
  ("crson", []),
  ("crsoff", []),
  ("ctoggle", ["pop", "get_ta"]),
  ("csub", []),
  ("cv", ["pop"]),
  ("d32", []),
  ("dabs", ["get_op1", "push_op1"]),
  ("d_add", []),
  ("dadd", ["get_ops", "push_res"]),
  ("date", ["push"]),
  ("ddivide", ["ddiv", "push"]),
  ("ddivmod", ["ddiv", "push"]),
  ("ddiv", ["get_ops", "d32", "neg"]),
  ("depth", []),
  ("d_eq", ["zerores"]),
  ("deq", ["get_ops", "d_eq", "push"]),
  ("d_ge", ["d_eq", "d_gt"]),
  ("dge", ["get_ops", "d_ge", "push"]),
  ("d_gt", ["d_sub", "iszero", "zerores"]),
  ("dgt", ["get_ops", "d_gt", "push"]),
  ("disp", ["get_ta", "chout", "udiv16", "push"]),
  ("div", ["get_ta", "comp_ta", "comp_tb", "udiv16", "push"]),
  ("d_le", ["d_eq", "d_lt"]),
  ("dle", ["get_ops", "d_le", "push"]),
  ("d_lt", ["d_sub", "zerores"]),
  ("dlt", ["get_ops", "d_lt", "push"]),
  ("dmod", ["ddiv", "push"]),
  ("dmult", ["get_ops", "neg", "m32", "push_res"]),
  ("dnegate", ["get_op1", "neg", "op1res", "push_res"]),
  ("d_ne", ["d_eq"]),
  ("dne", ["get_ops", "d_ne", "push"]),
  ("decaddr", ["get_ta"]),
  ("deccaddr", ["pop"]),
  ("dnumber", ["pop", "neg", "push"]),
  ("dprhex", ["get_op1", "cprhex"]),
  ("dprint", ["get_op2", "chout", "neg", "btod", "pntres"]),
  ("drop2", ["pop"]),
  ("drop", ["pop"]),
  ("d_sqrt", ["d_sub"]),
  ("dsqrt", ["get_op1", "d_sqrt", "push_res"]),
  ("d_sub", []),
  ("dsub", ["get_ops", "d_sub", "push_res"]),
  ("dtos", ["pop"]),
  ("dup2", ["push"]),
  ("duprint", ["get_op2", "btod", "pntres"]),
  ("dup", ["push"]),
  ("emit", ["pop", "chout"]),
  ("eq", ["get_ab", "push"]),
  ("exit", []),
  ("execute", ["pop"]),
  ("erase", ["pop", "get_ab"]),
  ("fill", ["pop", "get_ab"]),
  ("fclose", ["pop", "push"]),
  ("fcreate", ["pop", "push"]),
  ("fdestroy", ["pop", "push"]),
  ("feof", ["pop", "push"]),
  ("fetchend", ["push"]),
  ("fetchinda", ["push"]),
  ("fetchindadec", ["push"]),
  ("fetchindainc", ["push"]),
  ("fetchindb", ["push"]),
  ("fetchindbdec", ["push"]),
  ("fetchindbinc", ["push"]),
  ("fflush", ["pop", "push"]),
  ("fgetc", ["pop", "push"]),
  ("fread", ["pop", "push"]),
  ("fopen", ["pop", "push", "pdos_addr"]),
  ("fputc", ["pop", "push"]),
  ("fseek", ["pop", "push"]),
  ("ftell", ["pop", "push"]),
  ("fwrite", ["pop", "push"]),
  ("ge", ["get_ab", "csub", "push"]),
  ("get_ab", ["get_tb", "get_ta"]),
  ("get_op1", ["pop"]),
  ("get_op2", ["pop"]),
  ("get_ops", ["get_op2", "get_op1"]),
  ("get_ta", ["pop"]),
  ("get_tb", ["pop"]),
  ("get_file_info", ["pop", "push"]),
  ("getcwd", ["pop", "push"]),
  ("gt", ["get_ab", "csub", "push"]),
  ("incaddr", ["get_ta"]),
  ("inccaddr", ["pop"]),
  ("input_s", ["push"]),
  ("inverse", []),
  ("iszero", []),
  ("keyp", ["rdykey", "push"]),
  ("key", ["rdkey", "push"]),
  ("le", ["get_ab", "csub", "push"]),
  ("lt", ["get_ab", "csub", "push"]),
  ("m32", ["zerores"]),
  ("minus1", ["pop", "push"]),
  ("minus2", ["pop", "push"]),
  ("mod", ["get_ab", "comp_ta", "comp_tb", "udiv16", "push"]),
  ("mult", ["get_ab", "comp_ta", "comp_tb", "umult16", "push"]),
  ("negate", ["get_ta", "comp_ta", "push"]),
  ("neg", ["add1"]),
  ("ne", ["get_ab", "push"]),
  ("nip", ["get_ta", "pop", "push"]),
  ("normal", []),
  ("not", ["get_ta", "push"]),
  ("n_str", ["ptrout", "comp_ta", "u_str"]),
  ("number", ["comp_ta", "push"]),
  ("op1res", []),
  ("or", ["get_ab", "push"]),
  ("over", []),
  ("pad", []),
  ("pdos_addr", []),
  ("plus1", []),
  ("plus2", []),
  ("pntres", ["chout"]),
  ("pop", []),
  ("pos", ["pop"]),
  ("prbuf", ["chout"]),
  ("prhex2", ["pop", "cprhex"]),
  ("prhex", ["pop", "cprhex"]),
  ("primm", ["chout"]),
  ("print", ["n_str", "prbuf"]),
  ("ptrout", []),
  ("push_op1", ["push"]),
  ("push_op2", ["push"]),
  ("push_rem", ["push"]),
  ("push_res", ["push"]),
  ("push", []),
  ("quit", []),
  ("read_block", ["pop", "push"]),
  ("rename", ["pop", "push"]),
  ("rdkey", []),
  ("rdykey", []),
  ("reset", []),
  ("rot", ["get_ta", "get_tb", "pop", "push"]),
  ("setcwd", ["pop", "push"]),
  ("space", ["chout"]),
  ("set_file_info", ["pop", "push"]),
  ("spfetch", ["push"]),
  ("stod", ["push"]),
  ("strcmp", ["get_ab", "push"]),
  ("strcpy", ["get_ab"]),
  ("strlen", ["get_ta", "push"]),
  ("strmatch", ["get_ab", "push"]),
  ("strpos", ["get_ab", "push"]),
  ("sub1", []),
  ("sub", ["get_ab", "csub", "push"]),
  ("swapcell", []),
  ("swap2", ["get_ta", "get_tb", "pop", "push"]),
  ("swap", ["get_ta", "get_tb", "push"]),
  ("time", ["push"]),
  ("to_r", ["pop"]),
  ("type", ["get_ta", "get_tb", "chout", "udiv16", "push"]),
  ("from_r", ["push"]),
  ("r_fetch", ["to_r", "from_r", "dup"]),
  ("tooutbuf", ["u_str"]),
  ("store16", ["get_ta", "pop"]),
  ("store32", ["get_ta", "pop"]),
  ("store8", ["get_ta", "pop"]),
  ("udiv16", []),
  ("udiv", ["get_ab", "udiv16", "push"]),
  ("ugt", ["get_ab", "push"]),
  ("ult", ["get_ab", "push"]),
  ("umod", ["get_ab", "udiv16", "push"]),
  ("umult16", []),
  ("umult", ["get_ab", "umult16", "push"]),
  ("uncount", ["pop", "push"]),
  ("uprint", ["u_str", "prbuf"]),
  ("ushiftl", ["pop", "push"]),
  ("ushiftr", ["pop", "push"]),
  ("u_str", ["get_ta", "btoa"]),
  ("within", ["over", "to_r", "from_r", "ult"]),
  ("write_block", ["pop", "push"]),
  ("xor", ["get_ab", "push"]),
  ("xreg", ["pop"]),
  ("yreg", ["pop"]),
  ("zerores", [])]

/-- The word-to-label map `LIBRARYMAP` (src/spl.py lines 368-540), active
(uncommented) entries only. -/
def LIBRARYMAP : List (String × String) := [
  (">a", "toareg"),
  ("a>", "fromareg"),
  ("a!", "storeinda"),
  ("a@", "fetchinda"),
  ("a@+", "fetchindainc"),
  ("a@-", "fetchindadec"),
  ("a!+", "storeindainc"),
  (">b", "tobreg"),
  ("b>", "frombreg"),
  ("b!", "storeindb"),
  ("b@", "fetchindb"),
  ("b@+", "fetchindbinc"),
  ("b@-", "fetchindbdec"),
  ("b!+", "storeindbinc"),
  ("0trim", "0trim"),
  ("abs", "abs"),
  ("accept", "accept"),
  ("&.", "ampdot"),
  ("areg", "areg"),
  (">outbuf", "tooutbuf"),
  ("bclr", "bclr"),
  ("bset", "bset"),
  ("btest", "btest"),
  ("bye", "bye"),
  ("call", "call"),
  ("cmove", "cmove"),
  ("cmove>", "cmoveb"),
  ("count", "count"),
  ("cr", "cr"),
  ("dabs", "dabs"),
  ("date", "date"),
  ("d+", "dadd"),
  ("d/", "ddivide"),
  ("d/mod", "ddivmod"),
  ("depth", "depth"),
  ("d=", "deq"),
  ("d>=", "dge"),
  ("d>", "dgt"),
  ("disp", "disp"),
  ("d<=", "dle"),
  ("d<", "dlt"),
  ("dmod", "dmod"),
  ("d*", "dmult"),
  ("dnegate", "dnegate"),
  ("d<>", "dne"),
  ("dnumber", "dnumber"),
  ("d.$", "dprhex"),
  ("d.", "dprint"),
  ("dsqrt", "dsqrt"),
  ("d-", "dsub"),
  ("du.", "duprint"),
  ("emit", "emit"),
  ("end@", "fetchend"),
  ("exit", "exit"),
  ("erase", "erase"),
  ("=", "eq"),
  ("execute", "execute"),
  ("fclose", "fclose"),
  ("fdestroy", "fdestroy"),
  ("feof", "feof"),
  ("fflush", "fflush"),
  ("finfo@", "get_file_info"),
  ("finfo!", "set_file_info"),
  ("fgetc", "fgetc"),
  ("fill", "fill"),
  ("fopen", "fopen"),
  ("fputc", "fputc"),
  ("fread", "fread"),
  ("fseek", "fseek"),
  ("fwrite", "fwrite"),
  ("fcreate", "fcreate"),
  ("ftell", "ftell"),
  ("getcwd", "getcwd"),
  (">=", "ge"),
  (">", "gt"),
  ("input", "input_s"),
  ("keyp", "keyp"),
  ("key", "key"),
  ("/", "div"),
  ("<=", "le"),
  ("<", "lt"),
  ("<>", "ne"),
  ("not", "not"),
  ("number", "number"),
  ("pad", "pad"),
  (".2$", "prhex2"),
  (".$", "prhex"),
  (".", "print"),
  ("quit", "quit"),
  ("read_block", "read_block"),
  ("rename", "rename"),
  ("reset", "reset"),
  (">r", "to_r"),
  ("r>", "from_r"),
  ("r@", "r_fetch"),
  ("setcwd", "setcwd"),
  ("space", "space"),
  ("sp@", "spfetch"),
  ("strcmp", "strcmp"),
  ("strcpy", "strcpy"),
  ("strlen", "strlen"),
  ("strmatch", "strmatch"),
  ("strpos", "strpos"),
  ("time", "time"),
  ("type", "type"),
  ("uncount", "uncount"),
  ("u/", "udiv"),
  ("u>", "ugt"),
  ("u<", "ult"),
  ("umod", "umod"),
  ("u*", "umult"),
  ("u.", "uprint"),
  ("<<", "ushiftl"),
  (">>", "ushiftr"),
  ("><", "swapcell"),
  ("within", "within"),
  ("write_block", "write_block"),
  ("xreg", "xreg"),
  ("yreg", "yreg")]

/-- The first phase of `LibraryRoutines` (src/spl.py lines 1476-1484):
collect, in first-use order and without duplicates, every function-body
token that is a key of `LIBRARYMAP`. -/
def collectLibWords (funcs : List (String × List String)) : List String :=
  funcs.foldl
    (fun lib p =>
      p.2.foldl
        (fun l token =>
          if (LIBRARYMAP.lookup token).isSome ∧ token ∉ l then l ++ [token] else l)
        lib)
    []

/-- The second phase of `LibraryRoutines` (src/spl.py lines 1487-1492):
the direct dependencies of the used routines, deduplicated in order.
A `LIBRARYMAP` label missing from `DEPENDENCIES` is a Python `KeyError`. -/
def directDepends (lib : List String) : Except Err (List String) :=
  lib.foldlM
    (fun depends routine => do
      let name := (LIBRARYMAP.lookup routine).getD ""
      match DEPENDENCIES.lookup name with
      | none => .error .keyError
      | some ds =>
        .ok (ds.foldl (fun acc d => if d ∉ acc then acc ++ [d] else acc) depends))
    []

/-- `Dependencies` (src/spl.py lines 1460-1466): recursively append each
dependency not yet seen, then its own dependencies; `self.dependencies`
doubles as the visited set, so the recursion terminates on cyclic tables.
The recursion is bounded here by a fuel argument; `DEPENDENCIES.length`
new names can be appended at most. -/
def depClosureStep (fuel : Nat) (acc : List String) (names : List String) :
    Except Err (List String) :=
  match fuel with
  | 0 => .error .keyError
  | fuel + 1 =>
    names.foldlM
      (fun acc d =>
        if d ∉ acc then
          match DEPENDENCIES.lookup d with
          | none => .error .keyError
          | some ds => depClosureStep fuel (acc ++ [d]) ds
        else .ok acc)
      acc

/-- `LibraryRoutines` (src/spl.py lines 1472-1495): the used library
words `self.lib` and the transitive dependency list `self.dependencies`. -/
def libraryRoutines (funcs : List (String × List String)) :
    Except Err (List String × List String) := do
  let lib := collectLibWords funcs
  let depends ← directDepends lib
  let deps ← depClosureStep (DEPENDENCIES.length + 1) [] depends
  .ok (lib, deps)

/-- The library section of `AssemblyOutput` (src/spl.py lines 2642-2655):
the loop over `self.dependencies` only issues a debug message — the file
concatenation in it is commented out — and only the loop over `self.lib`
opens and concatenates a routine file, `LIB_DIR + LIBRARYMAP[s] + ".s"`.
The returned list is the sequence of library labels whose files are
concatenated into the output. -/
def assemblyLibFiles (lib : List String) : List String :=
  lib.map (fun s => (LIBRARYMAP.lookup s).getD "")

/-- Modelled from the spec claim wording (C1): the closed dependency set —
the labels of the library words referenced in function bodies together
with all of their transitive `DependencyTable` dependencies. -/
def specClosedDepSet (funcs : List (String × List String)) : Except Err (List String) := do
  let lib := collectLibWords funcs
  let labels := lib.map (fun s => (LIBRARYMAP.lookup s).getD "")
  labels.foldlM
    (fun acc l =>
      if l ∉ acc then
        match DEPENDENCIES.lookup l with
        | none => .error .keyError
        | some ds => depClosureStep (DEPENDENCIES.length + 1) (acc ++ [l]) ds
      else .ok acc)
    []

/-!  ## Claim theorems -/

/-- Claim C7 (code bug): inside an open loop `break` appends an
unconditional `JMP` to the loop's break label, but `cont` — which the
claim says appends an unconditional `JMP` to the continue label — dies
with `AttributeError` because src/spl.py line 1802 appends to the
misspelled attribute `self.fasam`, which is never assigned; nothing
reaches the instruction buffer. -/
theorem c7_cont_attribute_error :
    compileCont (compileLoopBegin ⟨0, [], []⟩) = .error .attributeError ∧
    compileBreak (compileLoopBegin ⟨0, [], []⟩) =
      .ok ⟨2, [("loop_A00000", "loop2_A00001")],
           [("loop_A00000", "", ""), ("", "JMP", "loop2_A00001")]⟩ := by
  exact ⟨rfl, rfl⟩

/-- The program of claim C1's failing input, after hoisting: `main`
pushes a string and prints it with the library word `.`. -/
def funcsC1 : List (String × List String) := [("main", ["STR_0000", "."])]

/-- Claim C1 (code bug): for `: main "hi" . ;` the resolver computes
`self.lib = ["."]` and the full transitive dependency list, but
`AssemblyOutput` concatenates a routine file only for the members of
`self.lib` (the dependency loop's file reads are commented out,
src/spl.py lines 2643-2648), so `print.s` is the only file emitted and
the routine `n_str` — in the closed dependency set — is missing from the
output, contradicting the claim and the table's own purpose statement
(lines 144-148). -/
theorem c1_dependencies_not_emitted :
    libraryRoutines funcsC1 =
      .ok (["."],
        ["n_str", "ptrout", "comp_ta", "u_str", "get_ta", "pop", "btoa", "prbuf", "chout"]) ∧
    assemblyLibFiles ["."] = ["print"] ∧
    specClosedDepSet funcsC1 =
      .ok ["print", "n_str", "ptrout", "comp_ta", "u_str", "get_ta", "pop",
           "btoa", "prbuf", "chout"] ∧
    "n_str" ∉ assemblyLibFiles ["."] := by
  refine ⟨by rfl, by rfl, by rfl, by decide⟩

/-- Claim C6 counterexample: the numeric-literal recognizer rejects `+5`
although it accepts `5`; the recognizer regexes only list `-` and `~` as
signs (src/spl.py line 841). -/
theorem c6_plus_sign_rejected_cex :
    isNumber "+5" = false ∧ isNumber "5" = true := by
  exact ⟨by decide, by decide⟩

/-- Claim C4 counterexample: the literal `70000` has no storage qualifier
and magnitude at least `2 ^ 16`, yet it parses with `bound = true` and
compiles without any out-of-bounds error to a word push truncated to 16
bits (`70000 mod 65536 = 4464`). -/
theorem c4_no_bounds_check_cex :
    literalInteger "70000" = .ok (some ⟨0, 70000, 0, 10, true, "70000"⟩) ∧
    compileNumber ⟨false, []⟩ "70000" =
      .ok ⟨false, [("", "LDD", "#4464"), ("", "PSHU", "D")]⟩ := by
  exact ⟨by decide, by decide⟩


/-- Claim C3 counterexample: with the command option value `0x3000`
(12288) and the source statement `org 0x2000`, `SetOrigin` returns 8192 —
the source statement's value — not the command option's. -/
theorem c3_source_org_wins_cex :
    setOrigin 0x3000 ["org", "0x2000"] = .ok 8192 ∧ (8192 : Nat) ≠ 0x3000 := by
  exact ⟨by rfl, by decide⟩

/-- Claim C8 counterexample: the source text `: main ; "abc` contains an
unterminated string literal, yet tokenization completes with no
diagnostic of any kind and the incomplete token is silently dropped. -/
theorem c8_unterminated_silently_dropped_cex :
    tokenizeStr ": main ; \"abc" = [":", "main", ";"] := by
  decide

/-- Claim C10 counterexample: after lowercasing and underscore removal,
`"12\n"` is neither a plain decimal digit string nor a `0x` hexadecimal
string, yet `Number` returns 12, not 0: Python's `$` also matches just
before one trailing newline, so the regex accepts the digit run. -/
theorem c10_trailing_newline_cex :
    (decide (lowerNoUnderscore "12\n" ≠ []) && (lowerNoUnderscore "12\n").all isDec) = false ∧
    simpleHexMatch (lowerNoUnderscore "12\n") = false ∧
    splSimpleNumber "12\n" = .ok 12 := by
  exact ⟨by decide, by decide, by decide⟩

/-- `List.lookup` at the head key. -/
theorem lookup_cons_self {α : Type} (a : String) (b : α) (l : List (String × α)) :
    ((a, b) :: l).lookup a = some b := by
  simp [List.lookup]

/-- `List.lookup` past a different head key. -/
theorem lookup_cons_ne {α : Type} (a k : String) (b : α) (l : List (String × α))
    (h : k ≠ a) : ((a, b) :: l).lookup k = l.lookup k := by
  have hb : (k == a) = false := beq_eq_false_iff_ne.mpr h
  simp [List.lookup, hb]

/-- `List.lookup` after a `dictSet`. -/
theorem dictSet_lookup {α : Type} (m : List (String × α)) (k k' : String) (v : α) :
    (dictSet m k v).lookup k' = if k' = k then some v else m.lookup k' := by
  induction m with
  | nil =>
    by_cases h : k' = k
    · subst h; simp [dictSet, lookup_cons_self]
    · simp [dictSet, h, lookup_cons_ne _ _ _ _ h]
  | cons p rest ih =>
    obtain ⟨a, b⟩ := p
    by_cases hak : a = k
    · subst hak
      by_cases h : k' = a
      · subst h; simp [dictSet, lookup_cons_self]
      · simp [dictSet, h, lookup_cons_ne _ _ _ _ h]
    · by_cases h : k' = a
      · subst h
        simp [dictSet, hak, lookup_cons_self]
      · simp [dictSet, hak, lookup_cons_ne _ _ _ _ h, ih]

/-- `dictGetB` after marking one key true. -/
theorem dictGetB_dictSet_true (m : List (String × Bool)) (k f : String) :
    dictGetB (dictSet m k true) f = true ↔ f = k ∨ dictGetB m f = true := by
  unfold dictGetB
  rw [dictSet_lookup]
  by_cases h : f = k <;> simp [h]

/-- Every key of the initial referenced map reads false. -/
theorem dictGetB_initReferenced (funcs : List (String × List String)) (f : String) :
    dictGetB (initReferenced funcs) f = false := by
  unfold dictGetB initReferenced
  induction funcs with
  | nil => simp
  | cons p rest ih =>
    by_cases h : f = p.1
    · subst h; simp [lookup_cons_self]
    · simpa [lookup_cons_ne _ _ _ _ h] using ih

/-- The program of claim C2's counterexample: `main` has an empty body,
`dead1` names `dead2`, and neither `dead1` nor `dead2` is referenced by
`main`. -/
def funcsC2 : List (String × List String) :=
  [("main", []), ("dead1", ["dead2"]), ("dead2", [])]

/-- Claim C2 counterexample: `dead2` is not reachable from `main`, yet
its compiled body appears in the emitted output, because `TagFunctions`
scans the bodies of ALL declared functions — including the unreachable
`dead1` — when marking referenced functions. -/
theorem c2_unreachable_function_compiled_cex :
    specReachableFromMain funcsC2 "dead2" = false ∧
    "dead2" ∈ compiledFunctionNames funcsC2 := by
  exact ⟨by decide, by decide⟩

/-- The inner token loop of `TagFunctions` over one body, characterized. -/
theorem tagBody_spec (symtbl : List (String × Kind)) (body : List String)
    (refs : List (String × Bool)) (f : String) :
    dictGetB
      (body.foldl
        (fun r token =>
          if symtbl.lookup token = some Kind.FUNC then dictSet r token true else r)
        refs) f = true ↔
      dictGetB refs f = true ∨ (f ∈ body ∧ symtbl.lookup f = some Kind.FUNC) := by
  induction body generalizing refs with
  | nil => simp
  | cons t ts ih =>
    rw [List.foldl_cons, ih]
    by_cases ht : symtbl.lookup t = some Kind.FUNC
    · rw [if_pos ht, dictGetB_dictSet_true]
      constructor
      · rintro ((rfl | h) | h)
        · exact Or.inr ⟨by simp, ht⟩
        · exact Or.inl h
        · exact Or.inr ⟨by simp [h.1], h.2⟩
      · rintro (h | ⟨hf, hk⟩)
        · exact Or.inl (Or.inr h)
        · rcases List.mem_cons.mp hf with rfl | hf
          · exact Or.inl (Or.inl rfl)
          · exact Or.inr ⟨hf, hk⟩
    · rw [if_neg ht]
      constructor
      · rintro (h | ⟨hf, hk⟩)
        · exact Or.inl h
        · exact Or.inr ⟨by simp [hf], hk⟩
      · rintro (h | ⟨hf, hk⟩)
        · exact Or.inl h
        · rcases List.mem_cons.mp hf with rfl | hf
          · exact absurd hk ht
          · exact Or.inr ⟨hf, hk⟩

/-- `TagFunctions`, characterized: a function is marked exactly when it
was already marked or its name occurs (as a `FUNC`-kinded token) in some
body. -/
theorem tagFunctions_spec (symtbl : List (String × Kind))
    (funcs : List (String × List String)) (refs : List (String × Bool)) (f : String) :
    dictGetB (tagFunctions symtbl funcs refs) f = true ↔
      dictGetB refs f = true ∨
        ((∃ p ∈ funcs, f ∈ p.2) ∧ symtbl.lookup f = some Kind.FUNC) := by
  unfold tagFunctions
  induction funcs generalizing refs with
  | nil => simp
  | cons p ps ih =>
    rw [List.foldl_cons, ih, tagBody_spec]
    constructor
    · rintro ((h | ⟨hf, hk⟩) | ⟨⟨q, hq, hfq⟩, hk⟩)
      · exact Or.inl h
      · exact Or.inr ⟨⟨p, by simp, hf⟩, hk⟩
      · exact Or.inr ⟨⟨q, by simp [hq], hfq⟩, hk⟩
    · rintro (h | ⟨⟨q, hq, hfq⟩, hk⟩)
      · exact Or.inl (Or.inl h)
      · rcases List.mem_cons.mp hq with rfl | hq
        · exact Or.inl (Or.inr ⟨hfq, hk⟩)
        · exact Or.inr ⟨⟨q, hq, hfq⟩, hk⟩

/-- A symbol table none of whose values is `FUNC` never reads `FUNC`. -/
theorem lookup_ne_of_all_ne (m : List (String × Kind)) (f : String)
    (h : ∀ p ∈ m, p.2 ≠ Kind.FUNC) : m.lookup f ≠ some Kind.FUNC := by
  induction m with
  | nil => simp
  | cons p rest ih =>
    obtain ⟨a, b⟩ := p
    by_cases hf : f = a
    · subst hf
      rw [lookup_cons_self]
      intro hh
      exact h (f, b) (by simp) (by simpa using hh)
    · rw [lookup_cons_ne _ _ _ _ hf]
      exact ih (fun q hq => h q (by simp [hq]))

/-- The symbol table built from function declarations maps a name to
`FUNC` exactly when it is a declared function name. -/
theorem funcSymtbl_lookup (funcs : List (String × List String)) (f : String) :
    (funcSymtbl funcs).lookup f = some Kind.FUNC ↔ f ∈ funcs.map (fun p => p.1) := by
  unfold funcSymtbl
  have hbase : ∀ (m0 : List (String × Kind)) (fs : List (String × List String)),
      (fs.foldl (fun m p => dictSet m p.1 Kind.FUNC) m0).lookup f =
        if f ∈ fs.map (fun p => p.1) then some Kind.FUNC else m0.lookup f := by
    intro m0 fs
    induction fs generalizing m0 with
    | nil => simp
    | cons p ps ih =>
      rw [List.foldl_cons, ih]
      by_cases hmem : f ∈ ps.map (fun p => p.1)
      · simp [hmem]
      · rw [if_neg hmem, dictSet_lookup]
        by_cases hf : f = p.1 <;> simp [hf, hmem]
  rw [hbase]
  by_cases hmem : f ∈ funcs.map (fun p => p.1)
  · simp [hmem]
  · rw [if_neg hmem]
    simp only [hmem, iff_false]
    exact lookup_ne_of_all_ne _ f (by decide)

/-- Claim C2, amended: for a program whose declarations are the given
functions, a declared function's compiled body is present in the emitted
output exactly when it is `main` or its name occurs as a token in SOME
declared function's body — whether or not that body is itself reachable
from `main`.  Absence therefore requires that no declared function
(reachable or not, `main` included) names it. -/
theorem c2_compiled_iff_referenced_anywhere
    (funcs : List (String × List String)) (f : String) :
    f ∈ compiledFunctionNames funcs ↔
      f ∈ funcs.map (fun p => p.1) ∧ (f = "main" ∨ ∃ p ∈ funcs, f ∈ p.2) := by
  unfold compiledFunctionNames finalReferenced
  constructor
  · intro h
    obtain ⟨p, hp, hpf⟩ := List.mem_map.mp h
    obtain ⟨hpmem, hpref⟩ := List.mem_filter.mp hp
    subst hpf
    refine ⟨List.mem_map.mpr ⟨p, hpmem, rfl⟩, ?_⟩
    have := (dictGetB_dictSet_true _ _ _).mp hpref
    rcases this with h1 | h2
    · exact Or.inl h1
    · rcases (tagFunctions_spec _ _ _ _).mp h2 with h3 | ⟨h4, _⟩
      · rw [dictGetB_initReferenced] at h3; exact absurd h3 (by simp)
      · exact Or.inr h4
  · rintro ⟨hmem, href⟩
    obtain ⟨p, hp, hpf⟩ := List.mem_map.mp hmem
    refine List.mem_map.mpr ⟨p, List.mem_filter.mpr ⟨hp, ?_⟩, hpf⟩
    rw [hpf]
    apply (dictGetB_dictSet_true _ _ _).mpr
    rcases href with rfl | ⟨q, hq, hfq⟩
    · exact Or.inl rfl
    · refine Or.inr ((tagFunctions_spec _ _ _ _).mpr (Or.inr ⟨⟨q, hq, hfq⟩, ?_⟩))
      exact (funcSymtbl_lookup funcs f).mpr hmem

/-- Claim C5: with the source's sign encoding (none = 0, `+` = 1,
`~` = -1, `-` = -2), the bounds check for a storage qualifier of `size`
bytes accepts magnitude `mag` exactly when `mag < 2 ^ (8 * size)` for an
unsigned literal and `mag ≤ 2 ^ (8 * size - 1)` for a negated or
complemented one; in particular `b'0xFF` unsigned (255) is in bounds,
`b'0x100` (256) is not, `-b'128` is in bounds, and `-b'129` is not. -/
theorem c5_litIntBound_ranges (sign : Int) (mag size : Nat)
    (hsize : size = 1 ∨ size = 2 ∨ size = 4) :
    (((sign = 0 ∨ sign = 1) →
        (litIntBound sign mag size = true ↔ mag < 2 ^ (8 * size))) ∧
     ((sign = -1 ∨ sign = -2) →
        (litIntBound sign mag size = true ↔ mag ≤ 2 ^ (8 * size - 1)))) ∧
    litIntBound 0 0xFF 1 = true ∧ litIntBound 0 0x100 1 = false ∧
    litIntBound (-2) 128 1 = true ∧ litIntBound (-2) 129 1 = false := by
  refine ⟨⟨?_, ?_⟩, by decide, by decide, by decide, by decide⟩
  · rintro (rfl | rfl) <;>
      rcases hsize with rfl | rfl | rfl <;>
      simp [litIntBound] <;> omega
  · rintro (rfl | rfl) <;>
      rcases hsize with rfl | rfl | rfl <;>
      simp [litIntBound] <;> omega

/-- Witness for claim C5, instantiated at an unsigned one-byte literal of
magnitude 255. -/
theorem c5_litIntBound_ranges_witness :
    ((1 : Nat) = 1 ∨ (1 : Nat) = 2 ∨ (1 : Nat) = 4) ∧
    (litIntBound 0 255 1 = true ↔ 255 < 2 ^ (8 * 1)) :=
  ⟨Or.inl rfl, ((c5_litIntBound_ranges 0 255 1 (Or.inl rfl)).1.1 (Or.inl rfl))⟩

/-- `checkSignOpt` leaves a leading `+` alone: only `-` and `~` are sign
alternatives. -/
theorem checkSignOpt_plus (l : List Char) : checkSignOpt ('+' :: l) = '+' :: l := rfl

/-- No storage marker starts with `+`. -/
theorem checkStorageOpt_plus (l : List Char) : checkStorageOpt ('+' :: l) = '+' :: l := rfl

/-- No recognizer body starts with `+`. -/
theorem decCheckBody_plus (l : List Char) : decCheckBody ('+' :: l) = false := rfl

/-- No recognizer body starts with `+` (hexadecimal shape). -/
theorem hexCheckBody_plus (l : List Char) : hexCheckBody ('+' :: l) = false := rfl

/-- No recognizer body starts with `+` (binary shape). -/
theorem binCheckBody_plus (l : List Char) : binCheckBody ('+' :: l) = false := rfl

/-- No recognizer body starts with `+` (octal shape). -/
theorem octCheckBody_plus (l : List Char) : octCheckBody ('+' :: l) = false := rfl

/-- Claim C6, amended: a string starting with `+` is never accepted by
the numeric-literal recognizer — the recognizer regexes admit only `-`,
`~` or no sign, although `LiteralUnary` (src/spl.py line 610) would
decode a `+` — while the same digits with `-`, `~` or no sign are
accepted. -/
theorem c6_plus_sign_rejected (s : String) (h : s.data.head? = some '+') :
    isNumber s = false ∧
    isNumber "5" = true ∧ isNumber "-5" = true ∧ isNumber "~5" = true := by
  refine ⟨?_, by decide, by decide, by decide⟩
  obtain ⟨cs, hd⟩ : ∃ cs, s.data = '+' :: cs := by
    cases hdd : s.data with
    | nil => rw [hdd] at h; simp at h
    | cons a l =>
      rw [hdd] at h
      simp only [List.head?_cons, Option.some.injEq] at h
      exact ⟨l, by rw [h]⟩
  have hmap : s.data.map Char.toLower = '+' :: cs.map Char.toLower := by
    rw [hd, List.map_cons]
    rfl
  have hne : ¬ s.data = [] := by rw [hd]; simp
  simp only [isNumber, checkDecimal, checkHexadecimal, checkBinary, checkOctal,
    hmap, if_neg hne, checkSignOpt_plus, checkStorageOpt_plus,
    decCheckBody_plus, hexCheckBody_plus, binCheckBody_plus, octCheckBody_plus,
    Bool.or_false]

/-- Witness for claim C6's amended theorem at the concrete string `+5`. -/
theorem c6_plus_sign_rejected_witness :
    "+5".data.head? = some '+' ∧
    (isNumber "+5" = false ∧
     isNumber "5" = true ∧ isNumber "-5" = true ∧ isNumber "~5" = true) :=
  ⟨by decide, c6_plus_sign_rejected "+5" (by decide)⟩

/-- Claim C3, amended: the `-org` command option only supplies the value
`SetOrigin` starts from; whenever the token scan reaches a top-level
`org N` statement (or raises), the outcome is the scan's and is the same
for every command-option value — the source statement wins — and only
when the scan falls off the end of the token list does the command
option (or, failing that, the configured default) decide the origin. -/
theorem c3_source_org_statement_wins (cmdA cmdB : Int) (toks : List String) :
    (∀ r, orgScan toks false false = some r →
       setOrigin cmdA toks = r ∧ setOrigin cmdB toks = r) ∧
    (orgScan toks false false = none →
       setOrigin cmdA toks = .ok (initOrg cmdA)) := by
  constructor
  · intro r h
    constructor <;> simp [setOrigin, h]
  · intro h
    simp [setOrigin, h]

/-- Witness for claim C3's amended theorem: with `-org 0x3000` on the
command line and `org 0x2000` in the source, both that run and a run
with no `-org` option at all yield 8192 = 0x2000. -/
theorem c3_source_org_statement_wins_witness :
    setOrigin 0x3000 ["org", "0x2000"] = .ok 8192 ∧
    setOrigin (-1) ["org", "0x2000"] = .ok 8192 :=
  (c3_source_org_statement_wins 0x3000 (-1) ["org", "0x2000"]).1 (.ok 8192) (by rfl)

/-- Claim C10, amended: when the lowercased, underscore-stripped form of
a string matches neither the decimal regex (a digit run, possibly empty,
optionally followed by one trailing newline — the empty digit run makes
`int ""` raise `ValueError`) nor the hexadecimal regex, `Number` returns
0 without reporting an error, and a value with that shape handed to
`-org`, `-var` or `-stack` (and not itself spelled like an option flag)
silently sets the corresponding address to 0. -/
theorem c10_malformed_number_silently_zero (s : String)
    (hd : (dropTrailingNewline (lowerNoUnderscore s)).all isDec = false)
    (hx : simpleHexMatch (dropTrailingNewline (lowerNoUnderscore s)) = false)
    (hflag : s ∉ ["-o", "-t", "-org", "-var", "-stack",
                  "-sys", "-warn", "-verbose", "-debug"]) :
    splSimpleNumber s = .ok 0 ∧
    parseCommandLine ["-org", s] = .ok { initCmdState with cmdOrigin := 0 } ∧
    parseCommandLine ["-var", s] = .ok { initCmdState with vartop := 0 } ∧
    parseCommandLine ["-stack", s] = .ok { initCmdState with stackBase := 0 } := by
  have hnum : splSimpleNumber s = .ok 0 := by
    simp [splSimpleNumber, hd, hx]
  simp only [List.mem_cons, List.not_mem_nil, or_false, not_or] at hflag
  obtain ⟨h1, h2, h3, h4, h5, h6, h7, h8, h9⟩ := hflag
  refine ⟨hnum, ?_, ?_, ?_⟩ <;>
    simp [parseCommandLine, parseCmdLoop, h1, h2, h3, h4, h5, h6, h7, h8, h9, hnum]

/-- Witness for claim C10's amended theorem at the malformed value
`zzz`. -/
theorem c10_malformed_number_silently_zero_witness :
    splSimpleNumber "zzz" = .ok 0 ∧
    parseCommandLine ["-org", "zzz"] = .ok { initCmdState with cmdOrigin := 0 } ∧
    parseCommandLine ["-var", "zzz"] = .ok { initCmdState with vartop := 0 } ∧
    parseCommandLine ["-stack", "zzz"] = .ok { initCmdState with stackBase := 0 } :=
  c10_malformed_number_silently_zero "zzz" (by decide) (by decide) (by decide)

/-- Unwrap `Except.map some`. -/
theorem map_some_eq_ok {n : LiteralInt} {e : Except Err LiteralInt}
    (h : e.map some = .ok (some n)) : e = .ok n := by
  cases e <;> simp_all [Except.map]

/-- A decimal literal without storage qualifier is never bounds-checked. -/
theorem splDecimal_size_zero_bound (s : String) (n : LiteralInt)
    (h : splDecimal s = .ok n) (hs : n.size = 0) : n.bound = true := by
  unfold splDecimal at h
  simp only [] at h
  split at h
  · injection h with h2
    subst h2
    dsimp at hs ⊢
    simp [hs]
  · exact absurd h (by simp)

/-- A binary literal without storage qualifier is never bounds-checked. -/
theorem splBinary_size_zero_bound (s : String) (n : LiteralInt)
    (h : splBinary s = .ok n) (hs : n.size = 0) : n.bound = true := by
  unfold splBinary at h
  simp only [] at h
  split at h
  · injection h with h2
    subst h2
    dsimp at hs ⊢
    simp [hs]
  · exact absurd h (by simp)

/-- An octal literal without storage qualifier is never bounds-checked. -/
theorem splOctal_size_zero_bound (s : String) (n : LiteralInt)
    (h : splOctal s = .ok n) (hs : n.size = 0) : n.bound = true := by
  unfold splOctal at h
  simp only [] at h
  split at h
  · injection h with h2
    subst h2
    dsimp at hs ⊢
    simp [hs]
  · exact absurd h (by simp)

/-- A hexadecimal literal without storage qualifier is never
bounds-checked. -/
theorem splHexadecimal_size_zero_bound (s : String) (n : LiteralInt)
    (h : splHexadecimal s = .ok n) (hs : n.size = 0) : n.bound = true := by
  unfold splHexadecimal at h
  simp only [] at h
  split at h
  · injection h with h2
    subst h2
    dsimp at hs ⊢
    simp [hs]
  · exact absurd h (by simp)

/-- Claim C4, amended: a literal whose storage qualifier is absent parses
with `bound = true` no matter how large its magnitude is — the parsers
bounds-check only when a qualifier was given — and `CompileNumber` then
emits it as a single word push whose operand is truncated to 16 bits by
`CompileWord`; no out-of-bounds error is ever reported for such a
literal. -/
theorem c4_default_word_never_bounds_checked (s : String) (n : LiteralInt)
    (st : FState) (hv : st.verbose = false)
    (hn : literalInteger s = .ok (some n)) (hs : n.size = 0) :
    n.bound = true ∧
    compileNumber st s = .ok { st with fasm := st.fasm ++
      [("", "LDD", "#" ++ compileWord
          (if n.sign = -1 then -(n.mag : Int) - 1
           else if n.sign = -2 then 0 - (n.mag : Int)
           else (n.mag : Int)) n.base),
       ("", "PSHU", "D")] } := by
  have hbound : n.bound = true := by
    unfold literalInteger at hn
    by_cases h0 : isNumber s
    · rw [if_pos h0] at hn
      by_cases h1 : checkDecimal s
      · rw [if_pos h1] at hn
        exact splDecimal_size_zero_bound s n (map_some_eq_ok hn) hs
      · rw [if_neg h1] at hn
        by_cases h2 : checkHexadecimal s
        · rw [if_pos h2] at hn
          exact splHexadecimal_size_zero_bound s n (map_some_eq_ok hn) hs
        · rw [if_neg h2] at hn
          by_cases h3 : checkBinary s
          · rw [if_pos h3] at hn
            exact splBinary_size_zero_bound s n (map_some_eq_ok hn) hs
          · rw [if_neg h3] at hn
            by_cases h4 : checkOctal s
            · rw [if_pos h4] at hn
              exact splOctal_size_zero_bound s n (map_some_eq_ok hn) hs
            · rw [if_neg h4] at hn
              exact absurd hn (by simp)
    · rw [if_neg h0] at hn
      exact absurd hn (by simp)
  refine ⟨hbound, ?_⟩
  simp only [compileNumber, hn]
  simp only [hbound, hs, hv]
  norm_num
  by_cases hs1 : n.sign = -1
  · simp [hs1]
  · by_cases hs2 : n.sign = -2
    · simp [hs1, hs2]
    · simp [hs1, hs2]

/-- Witness for claim C4's amended theorem at the literal `70000`, whose
magnitude exceeds 16 bits. -/
theorem c4_default_word_never_bounds_checked_witness :
    ((⟨0, 70000, 0, 10, true, "70000"⟩ : LiteralInt).bound = true) ∧
    compileNumber ⟨false, []⟩ "70000" =
      .ok { (⟨false, []⟩ : FState) with
            fasm := ([] : List Instr) ++
              [("", "LDD", "#" ++ compileWord
                  (if (⟨0, 70000, 0, 10, true, "70000"⟩ : LiteralInt).sign = -1 then
                     -(((⟨0, 70000, 0, 10, true, "70000"⟩ : LiteralInt).mag : Nat) : Int) - 1
                   else if (⟨0, 70000, 0, 10, true, "70000"⟩ : LiteralInt).sign = -2 then
                     0 - (((⟨0, 70000, 0, 10, true, "70000"⟩ : LiteralInt).mag : Nat) : Int)
                   else (((⟨0, 70000, 0, 10, true, "70000"⟩ : LiteralInt).mag : Nat) : Int))
                  (⟨0, 70000, 0, 10, true, "70000"⟩ : LiteralInt).base),
               ("", "PSHU", "D")] } :=
  c4_default_word_never_bounds_checked "70000" ⟨0, 70000, 0, 10, true, "70000"⟩
    ⟨false, []⟩ rfl (by decide) rfl

/-- While the lexer is inside a string whose delimiter never occurs in
the remaining input, every character is absorbed into the pending token
and the emitted token list never changes. -/
theorem tokFold_inString (body : List Char) : ∀ (st : TokState),
    st.inString = true → (∀ c ∈ body, c ≠ st.delim) →
    (body.foldl tokStep st).tokens = st.tokens := by
  induction body with
  | nil => intro st _ _; rfl
  | cons c cs ih =>
    intro st h1 h3
    have hc : ¬ c = st.delim := h3 c (by simp)
    rw [List.foldl_cons]
    have hstep : tokStep st c = { st with t := st.t ++ [c] } := by
      simp [tokStep, h1, hc]
    rw [hstep]
    exact ih _ h1 (fun d hd => h3 d (by simp [hd]))

/-- Claim C8, amended: an unterminated string literal is silently
discarded, not reported — when the lexer is in its neutral state and the
rest of the input is a `"` followed by characters none of which closes
the string, tokenization completes normally with exactly the tokens of
the preceding input and no diagnostic of any kind (`Tokenize` contains
no error call at all); an unterminated block comment and an unterminated
inline-assembly block are likewise silently dropped. -/
theorem c8_unterminated_silently_dropped (pre body : List Char)
    (h1 : (pre.foldl tokStep initTokState).inString = false)
    (h2 : (pre.foldl tokStep initTokState).inComment = false)
    (h3 : (pre.foldl tokStep initTokState).inCode = false)
    (h4 : (pre.foldl tokStep initTokState).inToken = false)
    (hbody : ∀ c ∈ body, c ≠ '"') :
    tokenize (pre ++ '"' :: body) = tokenize pre ∧
    tokenizeStr ": main ; /* foo" = [":", "main", ";"] ∧
    tokenizeStr ": main ; /# foo" = [":", "main", ";"] := by
  refine ⟨?_, by decide, by decide⟩
  unfold tokenize
  rw [List.foldl_append, List.foldl_cons]
  have hstep : tokStep (pre.foldl tokStep initTokState) '"' =
      { pre.foldl tokStep initTokState with inString := true, delim := '"', t := ['"'] } := by
    simp [tokStep, h1, h2, h3, h4]
  rw [hstep]
  exact tokFold_inString body _ rfl hbody

/-- Witness for claim C8's amended theorem: appending the unterminated
string `"abc` to the already-lexed prefix `: main ; ` leaves the token
list unchanged. -/
theorem c8_unterminated_silently_dropped_witness :
    tokenize (": main ; ".data ++ '"' :: "abc".data) = tokenize ": main ; ".data ∧
    tokenizeStr ": main ; /* foo" = [":", "main", ";"] ∧
    tokenizeStr ": main ; /# foo" = [":", "main", ";"] :=
  c8_unterminated_silently_dropped ": main ; ".data "abc".data
    (by decide) (by decide) (by decide) (by decide) (by decide)

/-- A generated `STR_XXXX` name starts with `S`, so it is never itself a
string constant. -/
theorem isStringConstant_strConstantName (n : Nat) :
    isStringConstant (strConstantName n) = false := by
  simp [isStringConstant, strConstantName]

/-- After one pass of the token hoister, no token of the produced body is
a string constant: kept tokens were not, and replaced tokens are
generated `STR_XXXX` names. -/
theorem hoistTokens_no_strconst (body : List String) : ∀ (st st' : CState)
    (body' : List String), hoistTokens st body = .ok (st', body') →
    ∀ t ∈ body', isStringConstant t = false := by
  induction body with
  | nil =>
    intro st st' body' h t ht
    simp only [hoistTokens, Except.ok.injEq, Prod.mk.injEq] at h
    obtain ⟨rfl, rfl⟩ := h
    simp at ht
  | cons tok rest ih =>
    intro st st' body' h t ht
    simp only [hoistTokens] at h
    split at h
    · split at h
      · exact absurd h (by simp)
      · split at h
        · next st2 rest2 heq =>
            simp only [Except.ok.injEq, Prod.mk.injEq] at h
            obtain ⟨rfl, rfl⟩ := h
            rcases List.mem_cons.mp ht with rfl | ht2
            · exact isStringConstant_strConstantName _
            · exact ih _ _ _ heq t ht2
        · exact absurd h (by simp)
    · next hc =>
        split at h
        · next st2 rest2 heq =>
            simp only [Except.ok.injEq, Prod.mk.injEq] at h
            obtain ⟨rfl, rfl⟩ := h
            rcases List.mem_cons.mp ht with rfl | ht2
            · exact Bool.not_eq_true _ ▸ (by simpa using hc)
            · exact ih _ _ _ heq t ht2
        · exact absurd h (by simp)

/-- The token hoister is the identity on a body containing no string
constant, and does not touch the session state. -/
theorem hoistTokens_id (body : List String) : ∀ (st : CState),
    (∀ t ∈ body, isStringConstant t = false) →
    hoistTokens st body = .ok (st, body) := by
  induction body with
  | nil => intro st _; rfl
  | cons tok rest ih =>
    intro st h
    have hc : isStringConstant tok = false := h tok (by simp)
    have hr := ih st (fun t ht => h t (List.mem_cons_of_mem _ ht))
    simp [hoistTokens, hc, hr]

/-- After one pass of the function hoister, no referenced function's body
contains a string constant. -/
theorem hoistFuncs_no_strconst (funcs : List (String × List String)) :
    ∀ (refs : List (String × Bool)) (st st' : CState)
    (funcs' : List (String × List String)),
    hoistFuncs refs st funcs = .ok (st', funcs') →
    ∀ p ∈ funcs', dictGetB refs p.1 = true →
    ∀ t ∈ p.2, isStringConstant t = false := by
  induction funcs with
  | nil =>
    intro refs st st' funcs' h p hp
    simp only [hoistFuncs, Except.ok.injEq, Prod.mk.injEq] at h
    obtain ⟨rfl, rfl⟩ := h
    simp at hp
  | cons q qs ih =>
    intro refs st st' funcs' h p hp href t ht
    obtain ⟨k, body⟩ := q
    simp only [hoistFuncs] at h
    split at h
    · split at h
      · next st1 body1 heq1 =>
          split at h
          · next st2 rest2 heq2 =>
              simp only [Except.ok.injEq, Prod.mk.injEq] at h
              obtain ⟨rfl, rfl⟩ := h
              rcases List.mem_cons.mp hp with rfl | hp2
              · exact hoistTokens_no_strconst _ _ _ _ heq1 t ht
              · exact ih _ _ _ _ heq2 p hp2 href t ht
          · exact absurd h (by simp)
      · exact absurd h (by simp)
    · next hr =>
        split at h
        · next st2 rest2 heq2 =>
            simp only [Except.ok.injEq, Prod.mk.injEq] at h
            obtain ⟨rfl, rfl⟩ := h
            rcases List.mem_cons.mp hp with rfl | hp2
            · exact absurd href (by simpa using hr)
            · exact ih _ _ _ _ heq2 p hp2 href t ht
        · exact absurd h (by simp)

/-- The function hoister is the identity when no referenced body contains
a string constant. -/
theorem hoistFuncs_id (funcs : List (String × List String)) :
    ∀ (refs : List (String × Bool)) (st : CState),
    (∀ p ∈ funcs, dictGetB refs p.1 = true →
      ∀ t ∈ p.2, isStringConstant t = false) →
    hoistFuncs refs st funcs = .ok (st, funcs) := by
  induction funcs with
  | nil => intro refs st _; rfl
  | cons q qs ih =>
    intro refs st h
    obtain ⟨k, body⟩ := q
    have hr := ih refs st (fun p hp => h p (List.mem_cons_of_mem _ hp))
    by_cases hk : dictGetB refs k = true
    · have hb : ∀ t ∈ body, isStringConstant t = false := h (k, body) (by simp) hk
      simp [hoistFuncs, hk, hoistTokens_id body st hb, hr]
    · simp [hoistFuncs, hk, hr]

/-- Re-assigning the same value to the same key is a no-op. -/
theorem dictSet_idem {α : Type} (m : List (String × α)) (k : String) (v : α) :
    dictSet (dictSet m k v) k v = dictSet m k v := by
  induction m with
  | nil => simp [dictSet]
  | cons p rest ih =>
    obtain ⟨a, b⟩ := p
    by_cases h : a = k
    · subst h; simp [dictSet]
    · simp [dictSet, h, ih]

/-- Claim C9: string-literal hoisting is idempotent — whenever a first
pass of `LocateStringConstants` succeeds, a second pass returns the first
pass's state unchanged: every replacement token `STR_XXXX` starts with
`S`, so it is not itself a quoted string, and nothing else changes the
bodies, the string table or the symbol table.  (The nonempty-token
hypothesis records that Python's `token[0]` would raise `IndexError` on
an empty token, which the lexer never produces.) -/
theorem c9_hoister_idempotent (st st' : CState)
    (hne : ∀ p ∈ st.funcs, ∀ t ∈ p.2, t ≠ "")
    (h : locateStringConstants st = .ok st') :
    locateStringConstants st' = .ok st' := by
  unfold locateStringConstants at h ⊢
  simp only [] at h ⊢
  split at h
  · next stX funcsX heq =>
      simp only [Except.ok.injEq] at h
      subst h
      have hidem : dictSet (dictSet st.referenced "main" true) "main" true =
          dictSet st.referenced "main" true := dictSet_idem _ _ _
      simp only [hidem]
      have hprop : ∀ p ∈ funcsX, dictGetB (dictSet st.referenced "main" true) p.1 = true →
          ∀ t ∈ p.2, isStringConstant t = false :=
        hoistFuncs_no_strconst _ _ _ _ _ heq
      rw [hoistFuncs_id funcsX _ _ hprop]
  · exact absurd h (by simp)

/-- First-pass input for claim C9's witness. -/
def exC9 : CState :=
  ⟨[("main", ["\"hi\"", "."])], [("main", false)], [], [], [], 0⟩

/-- First-pass output for claim C9's witness. -/
def exC9' : CState :=
  ⟨[("main", ["STR_0000", "."])], [("main", true)],
   [("STR_0000", "\"hi\"")], [("STR_0000", Kind.STR)],
   [("STR_0000", "STR_0000")], 1⟩

/-- Witness for claim C9 at a one-function program whose body holds one
string literal. -/
theorem c9_hoister_idempotent_witness :
    locateStringConstants exC9 = .ok exC9' ∧
    locateStringConstants exC9' = .ok exC9' :=
  ⟨by decide, c9_hoister_idempotent exC9 exC9' (by decide) (by decide)⟩
